import Mathlib

/-!
Verification of the Column Distribution Analysis Engine
(`ml_skills_core/connection.py` and `skill_eda/column_dist.py`)
against its natural-language specification.

Conventions of the embedding:
* Python strings are Lean `String`s; a column value fetched from the engine
  is `Option String` (`none` is SQL NULL).
* Python `float` division on counts is modelled with exact rationals `ℚ`
  (the spec phrases the percentage properties under exact arithmetic).
* Python exceptions are modelled with `Except String`.
* The observation strings produced by `generate_observations` are modelled
  by an inductive type `Obs` with one constructor per distinct message,
  carrying the numeric payloads that the f-strings interpolate; the tier
  logic that selects them is translated verbatim.
* `query_column_stats` runs four queries against an abstract engine whose
  answers may fail, and is modelled together with the trace of connection
  events it performs, so that the `try/finally` release of the connection
  is visible in the model.
-/

namespace MlSkills

/-- A single-quote character, used by the SQL-literal escaping code. -/
def sq : Char := '\x27'

/-- First-character class of the identifier regex: `[A-Za-z_]`. -/
def isIdentStart (c : Char) : Bool := c.isAlpha || c = '_'

/-- Continuation-character class of the identifier regex: `[A-Za-z0-9_]`. -/
def isIdentChar (c : Char) : Bool := c.isAlphanum || c = '_'

/-- Tail of Python `re.match(r"^[A-Za-z_][A-Za-z0-9_]*$", name)`: after the
first character, the rest must be identifier characters up to the end of the
string, or up to a single final newline — in Python (non-MULTILINE) `$`
matches at the end of the string *or just before a trailing newline*. -/
def identTail : List Char → Bool
  | [] => true
  | c :: rest =>
      if rest.isEmpty && c = '\n' then true
      else isIdentChar c && identTail rest

/-- `validate_identifier` from `connection.py`:
`bool(re.match(r"^[A-Za-z_][A-Za-z0-9_]*$", name))`. -/
def validate_identifier (name : String) : Bool :=
  match name.data with
  | [] => false
  | c :: rest => isIdentStart c && identTail rest

/-- The spec's reading of the contract: the *whole* string is one letter or
underscore followed by letters, digits, or underscores (no trailing-newline
allowance). Stated from the spec's words for comparison with
`validate_identifier`. -/
def matchesWholeIdent (name : String) : Bool :=
  match name.data with
  | [] => false
  | c :: rest => isIdentStart c && rest.all isIdentChar

/-- `escape_string` from `connection.py`: `value.replace("'", "''")` —
every single-quote character is doubled, all other characters kept. -/
def escape_string (value : String) : String :=
  ⟨value.data.foldr (fun c acc => if c = sq then c :: c :: acc else c :: acc) []⟩

/-- `infer_source_type` from `connection.py`. -/
def infer_source_type (source : String) : String :=
  let source_lower := source.toLower
  if source_lower.endsWith ".parquet" then "parquet"
  else if source_lower.endsWith ".csv" then "csv"
  else if source_lower.endsWith ".json" || source_lower.endsWith ".jsonl" then "json"
  else if source_lower.endsWith ".db" || source_lower.endsWith ".duckdb" then "database"
  else if List.IsInfix "://".data source.data then "database"
  else "unknown"

/-- The type-resolution step at the top of `build_scan_query`:
`if source_type is None: source_type = infer_source_type(source)` —
an explicit override wins over inference. -/
def resolved_type (source : String) (source_type : Option String) : String :=
  match source_type with
  | none => infer_source_type source
  | some t => t

/-- `build_scan_query` from `connection.py`; `ValueError` is modelled as
`Except.error` carrying the message. -/
def build_scan_query (source : String) (source_type : Option String) :
    Except String String :=
  let st := resolved_type source source_type
  let safe_source := escape_string source
  if st = "parquet" then
    .ok ("parquet_scan(" ++ String.singleton sq ++ safe_source ++ String.singleton sq ++ ")")
  else if st = "csv" then
    .ok ("read_csv_auto(" ++ String.singleton sq ++ safe_source ++ String.singleton sq ++ ")")
  else if st = "json" then
    .ok ("read_json_auto(" ++ String.singleton sq ++ safe_source ++ String.singleton sq ++ ")")
  else if st = "database" then
    .error "Database connections require explicit table specification"
  else
    .error ("Unknown source type for: " ++ source)

/-- `assess_cardinality` from `column_dist.py`. -/
def assess_cardinality (unique_count total_count : ℕ) : String :=
  if total_count = 0 then "Empty"
  else
    let ratio : ℚ := (unique_count : ℚ) / (total_count : ℚ)
    if unique_count ≤ 10 then "Low"
    else if unique_count ≤ 100 ∨ ratio < 1/100 then "Medium"
    else if ratio < 1/2 then "High"
    else "Very High (possibly unique identifier)"

/-- The null percentage `(nulls / total * 100) if total > 0 else 0`,
as computed in `generate_observations` and `build_report`. -/
def null_pct (nulls total : ℕ) : ℚ :=
  if 0 < total then (nulls : ℚ) / (total : ℚ) * 100 else 0

/-- One observation message of `generate_observations`, one constructor per
distinct f-string, carrying the interpolated numeric payloads. -/
inductive Obs where
  | lowCardinality (unique_count : ℕ)
  | veryHighCardinality
  | noMissingData
  | minimalMissing (null_pct : ℚ)
  | someMissing (null_pct : ℚ)
  | significantMissing (null_pct : ℚ)
  | extremeImbalance (top_value_pct : ℚ)
  | classImbalance (top_value_pct : ℚ)
  deriving DecidableEq, Repr

/-- Is this one of the four missing-data observations? -/
def Obs.isMissingObs : Obs → Bool
  | .noMissingData => true
  | .minimalMissing _ => true
  | .someMissing _ => true
  | .significantMissing _ => true
  | _ => false

/-- Is this one of the two cardinality observations? -/
def Obs.isCardinalityObs : Obs → Bool
  | .lowCardinality _ => true
  | .veryHighCardinality => true
  | _ => false

/-- Is this one of the two imbalance observations? -/
def Obs.isImbalanceObs : Obs → Bool
  | .extremeImbalance _ => true
  | .classImbalance _ => true
  | _ => false

/-- The cardinality observation block of `generate_observations`:
`if cardinality == "Low": … elif cardinality == "Very High (possibly unique
identifier)": …` (appending nothing otherwise). -/
def cardinalityObs (unique_count total : ℕ) : List Obs :=
  let cardinality := assess_cardinality unique_count total
  if cardinality = "Low" then [Obs.lowCardinality unique_count]
  else if cardinality = "Very High (possibly unique identifier)" then
    [Obs.veryHighCardinality]
  else []

/-- The missing-data observation block of `generate_observations`:
the four-way `if/elif/elif/else` on `null_pct`. -/
def missingObs (total nulls : ℕ) : List Obs :=
  let np := null_pct nulls total
  if np = 0 then [Obs.noMissingData]
  else if np < 1 then [Obs.minimalMissing np]
  else if np < 5 then [Obs.someMissing np]
  else [Obs.significantMissing np]

/-- The imbalance observation block of `generate_observations`:
`if top_value_pct > 95: … elif top_value_pct > 80: …` (nothing otherwise). -/
def imbalanceObs (top_value_pct : ℚ) : List Obs :=
  if 95 < top_value_pct then [Obs.extremeImbalance top_value_pct]
  else if 80 < top_value_pct then [Obs.classImbalance top_value_pct]
  else []

/-- `generate_observations` from `column_dist.py`: the cardinality
observation (if any), then the missing-data observation, then the imbalance
observation (if any), appended in the source's order. -/
def generate_observations (total nulls unique_count : ℕ) (top_value_pct : ℚ) :
    List Obs :=
  cardinalityObs unique_count total ++ missingObs total nulls ++ imbalanceObs top_value_pct

/-- `str(value) if value is not None else "<NULL>"`, then display truncation
of strings longer than 50 characters to 47 characters plus `"..."`. -/
def format_value (value : Option String) : String :=
  let display_value := match value with
    | some v => v
    | none => "<NULL>"
  if display_value.length > 50 then ⟨display_value.data.take 47⟩ ++ "..." else display_value

/-- One row built by `build_distribution_rows`; the formatted cell strings
are modelled by the numbers they display. -/
structure DistRow where
  display_value : String
  count : ℕ
  pct : ℚ
  cumulative : ℚ
  deriving DecidableEq, Repr

/-- The loop of `build_distribution_rows`: walks the `(value, count)` pairs
carrying the running cumulative percentage. -/
def buildRowsAux (total : ℕ) : List (Option String × ℕ) → ℚ → List DistRow
  | [], _ => []
  | (value, count) :: rest, cumulative =>
      let pct : ℚ := if 0 < total then (count : ℚ) / (total : ℚ) * 100 else 0
      let cumulative' := cumulative + pct
      { display_value := format_value value, count := count,
        pct := pct, cumulative := cumulative' } :: buildRowsAux total rest cumulative'

/-- `build_distribution_rows` from `column_dist.py`: returns the rows and
`top_value_pct` (the first row's percentage, `0.0` when there are no rows). -/
def build_distribution_rows (distribution : List (Option String × ℕ)) (total : ℕ) :
    List DistRow × ℚ :=
  let rows := buildRowsAux total distribution 0
  let top_value_pct : ℚ := match rows with
    | [] => 0
    | r :: _ => r.pct
  (rows, top_value_pct)

/-- The answers the engine gives to the four queries of
`query_column_stats`; each may fail (`conn.execute` raising, or the
`fetchone() is None` checks turning into `ValueError`). -/
structure Engine where
  totalQ : Except String ℕ
  nullsQ : Except String ℕ
  uniqueQ : Except String ℕ
  distQ : Except String (List (Option String × ℕ))

/-- Connection-lifecycle events performed by `query_column_stats`, in
order: opening the connection, running query `n`, closing the connection. -/
inductive Event where
  | openConn
  | runQuery (n : ℕ)
  | closeConn
  deriving DecidableEq, Repr

/-- `query_column_stats` from `column_dist.py`, modelled against an abstract
`Engine`: the `try` block runs the four queries in order, stopping at the
first failure; the `finally` clause closes the connection on every path.
Returns the result together with the trace of connection events. -/
def query_column_stats (e : Engine) :
    Except String (ℕ × ℕ × ℕ × List (Option String × ℕ)) × List Event :=
  let afterOpen : List Event := [Event.openConn]
  match e.totalQ with
  | .error m => (.error m, afterOpen ++ [Event.runQuery 1, Event.closeConn])
  | .ok total =>
    match e.nullsQ with
    | .error m => (.error m, afterOpen ++ [Event.runQuery 1, Event.runQuery 2, Event.closeConn])
    | .ok nulls =>
      match e.uniqueQ with
      | .error m =>
          (.error m,
            afterOpen ++ [Event.runQuery 1, Event.runQuery 2, Event.runQuery 3, Event.closeConn])
      | .ok unique_count =>
        match e.distQ with
        | .error m =>
            (.error m,
              afterOpen ++ [Event.runQuery 1, Event.runQuery 2, Event.runQuery 3,
                Event.runQuery 4, Event.closeConn])
        | .ok distribution =>
            (.ok (total, nulls, unique_count, distribution),
              afterOpen ++ [Event.runQuery 1, Event.runQuery 2, Event.runQuery 3,
                Event.runQuery 4, Event.closeConn])

/-! ## Lemmas and claim theorems -/

lemma identTail_cons (c : Char) (rest : List Char) :
    identTail (c :: rest) =
      if rest.isEmpty && c = '\n' then true else isIdentChar c && identTail rest := rfl

lemma identTail_iff (l : List Char) :
    identTail l = true ↔
      (l.all isIdentChar = true ∨
        ∃ q : List Char, l = q ++ ['\n'] ∧ q.all isIdentChar = true) := by
  induction l with
  | nil => simp [identTail]
  | cons c rest ih =>
    rw [identTail_cons]
    cases rest with
    | nil =>
      rcases eq_or_ne c '\n' with hc | hc
      · subst hc
        simp only [List.isEmpty_nil, Bool.and_true, decide_True, if_true]
        constructor
        · intro _; exact Or.inr ⟨[], rfl, rfl⟩
        · intro _; trivial
      · rw [if_neg (by simp [hc])]
        constructor
        · intro h
          simp only [Bool.and_eq_true] at h
          exact Or.inl (by simp [h.1])
        · rintro (h | ⟨q, hq, hqa⟩)
          · simp only [List.all_cons, List.all_nil, Bool.and_true] at h
            simp [h, identTail]
          · exfalso
            cases q with
            | nil => simp at hq; exact hc hq
            | cons a b => simp at hq
    | cons d t =>
      have hne : (d :: t).isEmpty = false := rfl
      rw [hne, Bool.false_and, if_neg (by simp), Bool.and_eq_true, ih]
      constructor
      · rintro ⟨hc, h | ⟨q, hq, hqa⟩⟩
        · exact Or.inl (by simp [hc, h])
        · exact Or.inr ⟨c :: q, by simp [hq], by simp [hc, hqa]⟩
      · rintro (h | ⟨q, hq, hqa⟩)
        · simp only [List.all_cons, Bool.and_eq_true] at h
          exact ⟨h.1, Or.inl (by simp [h.2.1, h.2.2])⟩
        · cases q with
          | nil => simp at hq
          | cons a q' =>
            simp only [List.cons_append, List.cons.injEq] at hq
            obtain ⟨rfl, hq'⟩ := hq
            simp only [List.all_cons, Bool.and_eq_true] at hqa
            exact ⟨hqa.1, Or.inr ⟨q', hq', hqa.2⟩⟩

lemma newline_data : ("\n" : String).data = ['\n'] := rfl

lemma validate_identifier_iff (name : String) :
    validate_identifier name = true ↔
      (matchesWholeIdent name = true ∨
        ∃ p : String, name = p ++ "\n" ∧ matchesWholeIdent p = true) := by
  cases name with
  | mk l =>
    cases l with
    | nil =>
      constructor
      · intro h; exact absurd h (by decide)
      · rintro (h | ⟨p, hp, hpa⟩)
        · exact absurd h (by decide)
        · exfalso
          have hd := congrArg String.data hp
          simp [String.data_append, newline_data] at hd
    | cons c rest =>
      have hl : validate_identifier ⟨c :: rest⟩ = (isIdentStart c && identTail rest) := rfl
      have hm : matchesWholeIdent ⟨c :: rest⟩ =
          (isIdentStart c && rest.all isIdentChar) := rfl
      rw [hl, hm, Bool.and_eq_true, identTail_iff, Bool.and_eq_true]
      constructor
      · rintro ⟨hs, h | ⟨q, hq, hqa⟩⟩
        · exact Or.inl ⟨hs, h⟩
        · refine Or.inr ⟨⟨c :: q⟩, ?_, ?_⟩
          · apply String.ext
            simp [String.data_append, newline_data, hq]
          · have hq' : matchesWholeIdent ⟨c :: q⟩ =
                (isIdentStart c && q.all isIdentChar) := rfl
            rw [hq', hs, hqa]; rfl
      · rintro (⟨hs, h⟩ | ⟨p, hp, hpa⟩)
        · exact ⟨hs, Or.inl h⟩
        · obtain ⟨pl⟩ := p
          have hd : c :: rest = pl ++ ['\n'] := by
            have := congrArg String.data hp
            simpa [String.data_append, newline_data] using this
          cases pl with
          | nil => exact absurd hpa (by decide)
          | cons a pl' =>
            have hca : c = a ∧ rest = pl' ++ ['\n'] := by simpa using hd
            obtain ⟨rfl, hrest⟩ := hca
            have hpa' : (isIdentStart c && pl'.all isIdentChar) = true := hpa
            simp only [Bool.and_eq_true] at hpa'
            exact ⟨hpa'.1, Or.inr ⟨pl', hrest, hpa'.2⟩⟩

/-- C1 (amended): `validate_identifier(name)` is true iff `name` matches
`^[A-Za-z_][A-Za-z0-9_]*$` as the whole string **or** `name` is such a match
followed by exactly one trailing newline (Python `re.match`'s `$` also
matches just before a final newline); in particular `validate_identifier`
accepts `"col_1"` and rejects `"1col"` and `"col; DROP TABLE x"`. -/
theorem validate_identifier_correct :
    (∀ name : String, validate_identifier name = true ↔
      (matchesWholeIdent name = true ∨
        ∃ p : String, name = p ++ "\n" ∧ matchesWholeIdent p = true)) ∧
    validate_identifier "col_1" = true ∧
    validate_identifier "1col" = false ∧
    validate_identifier "col; DROP TABLE x" = false :=
  ⟨validate_identifier_iff, by decide, by decide, by decide⟩

/-- C1 witness: the characterization applied at the concrete input `"abc"`. -/
theorem validate_identifier_correct_witness :
    validate_identifier "abc" = true :=
  (validate_identifier_correct.1 "abc").mpr (Or.inl (by decide))

/-- C1 counterexample: `"col_1\n"` does **not** match
`^[A-Za-z_][A-Za-z0-9_]*$` as a whole string, yet `validate_identifier`
returns true on it, refuting the claimed iff. -/
theorem validate_identifier_ctrex :
    validate_identifier "col_1\n" = true ∧ matchesWholeIdent "col_1\n" = false := by
  decide

lemma assess_cardinality_pos (unique_count total : ℕ) (ht : total ≠ 0) :
    assess_cardinality unique_count total =
      (if unique_count ≤ 10 then "Low"
       else if unique_count ≤ 100 ∨ (unique_count : ℚ) / total < 1/100 then "Medium"
       else if (unique_count : ℚ) / total < 1/2 then "High"
       else "Very High (possibly unique identifier)") := by
  simp [assess_cardinality, ht]

/-- C2: `assess_cardinality` evaluates its branches in order with first
match winning: `total == 0` → Empty, `unique_count ≤ 10` → Low,
`unique_count ≤ 100` or ratio `< 0.01` → Medium, ratio `< 0.5` → High,
otherwise the Very High class; and `assess_cardinality 5 1000 = "Low"`,
`assess_cardinality 0 0 = "Empty"`. -/
theorem assess_cardinality_branches (unique_count total : ℕ) (h : unique_count ≤ total) :
    (total = 0 → assess_cardinality unique_count total = "Empty") ∧
    (total ≠ 0 → unique_count ≤ 10 → assess_cardinality unique_count total = "Low") ∧
    (total ≠ 0 → 10 < unique_count →
      (unique_count ≤ 100 ∨ (unique_count : ℚ) / total < 1/100) →
      assess_cardinality unique_count total = "Medium") ∧
    (total ≠ 0 → 100 < unique_count → ¬((unique_count : ℚ) / total < 1/100) →
      (unique_count : ℚ) / total < 1/2 →
      assess_cardinality unique_count total = "High") ∧
    (total ≠ 0 → 100 < unique_count → ¬((unique_count : ℚ) / total < 1/100) →
      ¬((unique_count : ℚ) / total < 1/2) →
      assess_cardinality unique_count total = "Very High (possibly unique identifier)") ∧
    assess_cardinality 5 1000 = "Low" ∧
    assess_cardinality 0 0 = "Empty" := by
  refine ⟨?_, ?_, ?_, ?_, ?_, by decide, by decide⟩
  · intro ht; simp [assess_cardinality, ht]
  · intro ht h10
    rw [assess_cardinality_pos _ _ ht, if_pos h10]
  · intro ht h10 hmed
    rw [assess_cardinality_pos _ _ ht, if_neg (by omega), if_pos hmed]
  · intro ht h100 hr1 hr2
    have hnor : ¬(unique_count ≤ 100 ∨ (unique_count : ℚ) / total < 1/100) := by
      rintro (hc | hc)
      · omega
      · exact hr1 hc
    rw [assess_cardinality_pos _ _ ht, if_neg (by omega), if_neg hnor, if_pos hr2]
  · intro ht h100 hr1 hr2
    have hnor : ¬(unique_count ≤ 100 ∨ (unique_count : ℚ) / total < 1/100) := by
      rintro (hc | hc)
      · omega
      · exact hr1 hc
    rw [assess_cardinality_pos _ _ ht, if_neg (by omega), if_neg hnor, if_neg hr2]

/-- C2 witness: the Low branch applied at `(5, 1000)`. -/
theorem assess_cardinality_branches_witness :
    assess_cardinality 5 1000 = "Low" :=
  (assess_cardinality_branches 5 1000 (by norm_num)).2.1 (by norm_num) (by norm_num)

/-- C3 counterexample: at `(999, 1000)` the final branch returns the string
`"Very High (possibly unique identifier)"`, which differs from the
`"Very High (possible identifier)"` the claim states. -/
theorem assess_cardinality_string_ctrex :
    assess_cardinality 999 1000 = "Very High (possibly unique identifier)" ∧
    assess_cardinality 999 1000 ≠ "Very High (possible identifier)" := by
  have h : assess_cardinality 999 1000 = "Very High (possibly unique identifier)" := by
    rw [assess_cardinality_pos 999 1000 (by norm_num)]
    norm_num
  exact ⟨h, by rw [h]; decide⟩

/-- C3 (amended): in the final branch (`total > 0`, `unique_count > 100`,
ratio `≥ 0.5`) `assess_cardinality` returns exactly the string
`"Very High (possibly unique identifier)"`. -/
theorem assess_cardinality_very_high (unique_count total : ℕ)
    (ht : 0 < total) (hu : 100 < unique_count)
    (hr : (1 : ℚ)/2 ≤ (unique_count : ℚ) / total) :
    assess_cardinality unique_count total = "Very High (possibly unique identifier)" := by
  have hnor : ¬(unique_count ≤ 100 ∨ (unique_count : ℚ) / total < 1/100) := by
    rintro (hc | hc)
    · omega
    · linarith
  rw [assess_cardinality_pos _ _ (Nat.pos_iff_ne_zero.mp ht), if_neg (by omega),
    if_neg hnor, if_neg (by linarith)]

/-- C3 witness: the final branch applied at `(999, 1000)`. -/
theorem assess_cardinality_very_high_witness :
    assess_cardinality 999 1000 = "Very High (possibly unique identifier)" :=
  assess_cardinality_very_high 999 1000 (by norm_num) (by norm_num) (by norm_num)

lemma cardinalityObs_filter_missing (unique_count total : ℕ) :
    (cardinalityObs unique_count total).filter Obs.isMissingObs = [] := by
  simp only [cardinalityObs]
  split_ifs <;> rfl

lemma imbalanceObs_filter_missing (p : ℚ) :
    (imbalanceObs p).filter Obs.isMissingObs = [] := by
  simp only [imbalanceObs]
  split_ifs <;> rfl

lemma missingObs_filter_missing (total nulls : ℕ) :
    (missingObs total nulls).filter Obs.isMissingObs = missingObs total nulls := by
  simp only [missingObs]
  split_ifs <;> rfl

lemma gen_obs_filter_missing (total nulls unique_count : ℕ) (p : ℚ) :
    (generate_observations total nulls unique_count p).filter Obs.isMissingObs =
      missingObs total nulls := by
  simp [generate_observations, List.filter_append, cardinalityObs_filter_missing,
    imbalanceObs_filter_missing, missingObs_filter_missing]

lemma cardinalityObs_filter_imb (unique_count total : ℕ) :
    (cardinalityObs unique_count total).filter Obs.isImbalanceObs = [] := by
  simp only [cardinalityObs]
  split_ifs <;> rfl

lemma missingObs_filter_imb (total nulls : ℕ) :
    (missingObs total nulls).filter Obs.isImbalanceObs = [] := by
  simp only [missingObs]
  split_ifs <;> rfl

lemma imbalanceObs_filter_imb (p : ℚ) :
    (imbalanceObs p).filter Obs.isImbalanceObs = imbalanceObs p := by
  simp only [imbalanceObs]
  split_ifs <;> rfl

lemma gen_obs_filter_imb (total nulls unique_count : ℕ) (p : ℚ) :
    (generate_observations total nulls unique_count p).filter Obs.isImbalanceObs =
      imbalanceObs p := by
  simp [generate_observations, List.filter_append, cardinalityObs_filter_imb,
    missingObs_filter_imb, imbalanceObs_filter_imb]

lemma missingObs_filter_card (total nulls : ℕ) :
    (missingObs total nulls).filter Obs.isCardinalityObs = [] := by
  simp only [missingObs]
  split_ifs <;> rfl

lemma imbalanceObs_filter_card (p : ℚ) :
    (imbalanceObs p).filter Obs.isCardinalityObs = [] := by
  simp only [imbalanceObs]
  split_ifs <;> rfl

lemma cardinalityObs_filter_card (unique_count total : ℕ) :
    (cardinalityObs unique_count total).filter Obs.isCardinalityObs =
      cardinalityObs unique_count total := by
  simp only [cardinalityObs]
  split_ifs <;> rfl

lemma gen_obs_filter_card (total nulls unique_count : ℕ) (p : ℚ) :
    (generate_observations total nulls unique_count p).filter Obs.isCardinalityObs =
      cardinalityObs unique_count total := by
  simp [generate_observations, List.filter_append, cardinalityObs_filter_card,
    missingObs_filter_card, imbalanceObs_filter_card]

lemma missingObs_length (total nulls : ℕ) :
    (missingObs total nulls).length = 1 := by
  simp only [missingObs]
  split_ifs <;> rfl

lemma cardinalityObs_length (unique_count total : ℕ) :
    (cardinalityObs unique_count total).length ≤ 1 := by
  simp only [cardinalityObs]
  split_ifs <;> simp

lemma imbalanceObs_length (p : ℚ) :
    (imbalanceObs p).length ≤ 1 := by
  simp only [imbalanceObs]
  split_ifs <;> simp

lemma null_pct_1000_10 : null_pct 10 1000 = 1 := by
  norm_num [null_pct]

/-- C4: `generate_observations` emits exactly one missing-data observation,
chosen by mutually exclusive tiers evaluated in order (`null_pct == 0`,
`< 1`, `< 5`, else significant); at `null_pct` exactly `1.0`
(`total = 1000`, `nulls = 10`) the some-missing-data tier fires, not the
minimal tier. -/
theorem gen_obs_missing_tier (total nulls unique_count : ℕ) (p : ℚ) (h : nulls ≤ total) :
    ((generate_observations total nulls unique_count p).filter Obs.isMissingObs).length = 1 ∧
    (null_pct nulls total = 0 →
      (generate_observations total nulls unique_count p).filter Obs.isMissingObs =
        [Obs.noMissingData]) ∧
    (null_pct nulls total ≠ 0 → null_pct nulls total < 1 →
      (generate_observations total nulls unique_count p).filter Obs.isMissingObs =
        [Obs.minimalMissing (null_pct nulls total)]) ∧
    (null_pct nulls total ≠ 0 → ¬(null_pct nulls total < 1) → null_pct nulls total < 5 →
      (generate_observations total nulls unique_count p).filter Obs.isMissingObs =
        [Obs.someMissing (null_pct nulls total)]) ∧
    (null_pct nulls total ≠ 0 → ¬(null_pct nulls total < 5) →
      (generate_observations total nulls unique_count p).filter Obs.isMissingObs =
        [Obs.significantMissing (null_pct nulls total)]) ∧
    (generate_observations 1000 10 unique_count p).filter Obs.isMissingObs =
      [Obs.someMissing 1] := by
  rw [gen_obs_filter_missing, gen_obs_filter_missing]
  refine ⟨missingObs_length total nulls, ?_, ?_, ?_, ?_, ?_⟩
  · intro h0
    simp only [missingObs]
    rw [if_pos h0]
  · intro h0 h1
    simp only [missingObs]
    rw [if_neg h0, if_pos h1]
  · intro h0 h1 h5
    simp only [missingObs]
    rw [if_neg h0, if_neg h1, if_pos h5]
  · intro h0 h5
    have h1 : ¬(null_pct nulls total < 1) := by
      intro hlt; exact h5 (by linarith)
    simp only [missingObs]
    rw [if_neg h0, if_neg h1, if_neg h5]
  · simp only [missingObs, null_pct_1000_10]
    norm_num

/-- C4 witness: the end-to-end scenario `(total, nulls) = (1000, 10)` —
`null_pct = 1.0` selects the some-missing-data observation. -/
theorem gen_obs_missing_tier_witness :
    (generate_observations 1000 10 4 80).filter Obs.isMissingObs = [Obs.someMissing 1] :=
  (gen_obs_missing_tier 1000 10 4 80 (by norm_num)).2.2.2.2.2

/-- C5: `generate_observations` appends at most one imbalance observation:
extreme above 95, class imbalance above 80, nothing otherwise — and nothing
at exactly `80.0`. -/
theorem gen_obs_imbalance_tier (total nulls unique_count : ℕ) (p : ℚ) :
    ((generate_observations total nulls unique_count p).filter Obs.isImbalanceObs).length ≤ 1 ∧
    (95 < p →
      (generate_observations total nulls unique_count p).filter Obs.isImbalanceObs =
        [Obs.extremeImbalance p]) ∧
    (¬(95 < p) → 80 < p →
      (generate_observations total nulls unique_count p).filter Obs.isImbalanceObs =
        [Obs.classImbalance p]) ∧
    (p ≤ 80 →
      (generate_observations total nulls unique_count p).filter Obs.isImbalanceObs = []) ∧
    (generate_observations total nulls unique_count 80).filter Obs.isImbalanceObs = [] := by
  rw [gen_obs_filter_imb, gen_obs_filter_imb]
  refine ⟨imbalanceObs_length p, ?_, ?_, ?_, ?_⟩
  · intro h95
    simp only [imbalanceObs]
    rw [if_pos h95]
  · intro h95 h80
    simp only [imbalanceObs]
    rw [if_neg h95, if_pos h80]
  · intro h80
    simp only [imbalanceObs]
    rw [if_neg (by linarith), if_neg (by linarith)]
  · simp only [imbalanceObs]
    norm_num

/-- C5 witness: `top_value_pct = 81` fires the class-imbalance tier. -/
theorem gen_obs_imbalance_tier_witness :
    (generate_observations 100 0 5 81).filter Obs.isImbalanceObs = [Obs.classImbalance 81] :=
  (gen_obs_imbalance_tier 100 0 5 81).2.2.1 (by norm_num) (by norm_num)

/-- C10: `generate_observations` always returns between 1 and 3
observations: exactly one missing-data observation, at most one cardinality
observation, at most one imbalance observation. -/
theorem gen_obs_count (total nulls unique_count : ℕ) (p : ℚ) (h : nulls ≤ total) :
    1 ≤ (generate_observations total nulls unique_count p).length ∧
    (generate_observations total nulls unique_count p).length ≤ 3 ∧
    ((generate_observations total nulls unique_count p).filter Obs.isMissingObs).length = 1 ∧
    ((generate_observations total nulls unique_count p).filter Obs.isCardinalityObs).length ≤ 1 ∧
    ((generate_observations total nulls unique_count p).filter Obs.isImbalanceObs).length ≤ 1 := by
  have hlen : (generate_observations total nulls unique_count p).length =
      (cardinalityObs unique_count total).length + (missingObs total nulls).length +
        (imbalanceObs p).length := by
    simp [generate_observations]
    omega
  have hc := cardinalityObs_length unique_count total
  have hm := missingObs_length total nulls
  have hi := imbalanceObs_length p
  refine ⟨by omega, by omega, ?_, ?_, ?_⟩
  · rw [gen_obs_filter_missing]; exact hm
  · rw [gen_obs_filter_card]; exact hc
  · rw [gen_obs_filter_imb]; exact hi

/-- C10 witness: the bounds applied at the end-to-end scenario input. -/
theorem gen_obs_count_witness :
    1 ≤ (generate_observations 1000 10 4 80).length ∧
    (generate_observations 1000 10 4 80).length ≤ 3 :=
  ⟨(gen_obs_count 1000 10 4 80 (by norm_num)).1,
   (gen_obs_count 1000 10 4 80 (by norm_num)).2.1⟩

lemma escape_count_aux (l : List Char) :
    (l.foldr (fun c acc => if c = sq then c :: c :: acc else c :: acc) []).count sq =
      2 * l.count sq := by
  induction l with
  | nil => rfl
  | cons c t ih =>
    rw [List.foldr_cons]
    by_cases hc : c = sq
    · subst hc
      rw [if_pos rfl]
      simp only [List.count_cons_self, ih]
      omega
    · rw [if_neg hc]
      simp only [List.count_cons, ih]
      simp [hc]

lemma escape_string_count (s : String) :
    (escape_string s).data.count sq = 2 * s.data.count sq :=
  escape_count_aux s.data

lemma infer_source_type_mem (source : String) :
    infer_source_type source = "parquet" ∨ infer_source_type source = "csv" ∨
    infer_source_type source = "json" ∨ infer_source_type source = "database" ∨
    infer_source_type source = "unknown" := by
  simp only [infer_source_type]
  split_ifs <;> simp

lemma build_scan_query_eq (source : String) (source_type : Option String) :
    build_scan_query source source_type =
      (if resolved_type source source_type = "parquet" then
        .ok ("parquet_scan(" ++ String.singleton sq ++ escape_string source ++
          String.singleton sq ++ ")")
      else if resolved_type source source_type = "csv" then
        .ok ("read_csv_auto(" ++ String.singleton sq ++ escape_string source ++
          String.singleton sq ++ ")")
      else if resolved_type source source_type = "json" then
        .ok ("read_json_auto(" ++ String.singleton sq ++ escape_string source ++
          String.singleton sq ++ ")")
      else if resolved_type source source_type = "database" then
        .error "Database connections require explicit table specification"
      else .error ("Unknown source type for: " ++ source)) := rfl

/-- C6: `build_scan_query` resolves the type with explicit override winning
over inference; for resolved type parquet/csv/json it returns the matching
scan expression around the source escaped as a SQL literal (every single
quote doubled, witnessed by the quote-count equation), and it fails exactly
when the resolved type is `database` or `unknown`. -/
theorem build_scan_query_correct (source : String) (source_type : Option String)
    (hst : source_type = none ∨ source_type = some "parquet" ∨ source_type = some "csv" ∨
      source_type = some "json" ∨ source_type = some "database" ∨
      source_type = some "unknown") :
    (∀ t, source_type = some t → resolved_type source source_type = t) ∧
    (source_type = none → resolved_type source source_type = infer_source_type source) ∧
    (resolved_type source source_type = "parquet" →
      build_scan_query source source_type =
        .ok ("parquet_scan(" ++ String.singleton sq ++ escape_string source ++
          String.singleton sq ++ ")")) ∧
    (resolved_type source source_type = "csv" →
      build_scan_query source source_type =
        .ok ("read_csv_auto(" ++ String.singleton sq ++ escape_string source ++
          String.singleton sq ++ ")")) ∧
    (resolved_type source source_type = "json" →
      build_scan_query source source_type =
        .ok ("read_json_auto(" ++ String.singleton sq ++ escape_string source ++
          String.singleton sq ++ ")")) ∧
    ((∃ m, build_scan_query source source_type = .error m) ↔
      (resolved_type source source_type = "database" ∨
       resolved_type source source_type = "unknown")) ∧
    (escape_string source).data.count sq = 2 * source.data.count sq := by
  have hmem : resolved_type source source_type = "parquet" ∨
      resolved_type source source_type = "csv" ∨
      resolved_type source source_type = "json" ∨
      resolved_type source source_type = "database" ∨
      resolved_type source source_type = "unknown" := by
    rcases hst with h | h | h | h | h | h <;> subst h
    · simpa [resolved_type] using infer_source_type_mem source
    all_goals simp [resolved_type]
  refine ⟨fun t ht => by rw [ht]; rfl, fun ht => by rw [ht]; rfl, ?_, ?_, ?_, ?_,
    escape_string_count source⟩
  · intro h; rw [build_scan_query_eq, if_pos h]
  · intro h; rw [build_scan_query_eq, if_neg (by rw [h]; decide), if_pos h]
  · intro h
    rw [build_scan_query_eq, if_neg (by rw [h]; decide), if_neg (by rw [h]; decide), if_pos h]
  · rw [build_scan_query_eq]
    rcases hmem with h | h | h | h | h <;> rw [h]
    · rw [if_pos rfl]
      exact ⟨fun ⟨m, hm⟩ => absurd hm (by simp), fun hh => absurd hh (by decide)⟩
    · rw [if_neg (by decide), if_pos rfl]
      exact ⟨fun ⟨m, hm⟩ => absurd hm (by simp), fun hh => absurd hh (by decide)⟩
    · rw [if_neg (by decide), if_neg (by decide), if_pos rfl]
      exact ⟨fun ⟨m, hm⟩ => absurd hm (by simp), fun hh => absurd hh (by decide)⟩
    · rw [if_neg (by decide), if_neg (by decide), if_neg (by decide), if_pos rfl]
      exact ⟨fun _ => Or.inl rfl, fun _ => ⟨_, rfl⟩⟩
    · rw [if_neg (by decide), if_neg (by decide), if_neg (by decide), if_neg (by decide)]
      exact ⟨fun _ => Or.inr rfl, fun _ => ⟨_, rfl⟩⟩

/-- C6 witness: an explicit csv override on a concrete source. -/
theorem build_scan_query_correct_witness :
    build_scan_query "data.csv" (some "csv") =
      .ok ("read_csv_auto(" ++ String.singleton sq ++ escape_string "data.csv" ++
        String.singleton sq ++ ")") :=
  (build_scan_query_correct "data.csv" (some "csv")
    (Or.inr (Or.inr (Or.inl rfl)))).2.2.2.1 rfl

lemma buildRowsAux_pct_total_zero (dist : List (Option String × ℕ)) :
    ∀ (c : ℚ) r, r ∈ buildRowsAux 0 dist c → r.pct = 0 := by
  induction dist with
  | nil => intro c r hr; simp [buildRowsAux] at hr
  | cons e rest ih =>
    intro c r hr
    obtain ⟨v, n⟩ := e
    simp only [buildRowsAux, List.mem_cons] at hr
    rcases hr with hr | hr
    · rw [hr]; simp
    · exact ih _ r hr

/-- C7: the analyzer is total — `null_pct` and every per-entry percentage
are `0` when `total = 0` (the zero-division guard is structural), the
cardinality of an empty source is Empty, and an empty entry list yields an
empty row list with `top_value_pct = 0`. -/
theorem analyzer_total_props (nulls unique_count total : ℕ)
    (dist : List (Option String × ℕ)) :
    null_pct nulls 0 = 0 ∧
    (∀ r ∈ (build_distribution_rows dist 0).1, r.pct = 0) ∧
    (build_distribution_rows dist 0).2 = 0 ∧
    assess_cardinality unique_count 0 = "Empty" ∧
    (build_distribution_rows [] total).1 = [] ∧
    (build_distribution_rows [] total).2 = 0 := by
  refine ⟨by simp [null_pct], ?_, ?_, by simp [assess_cardinality], rfl, rfl⟩
  · intro r hr
    exact buildRowsAux_pct_total_zero dist 0 r hr
  · simp only [build_distribution_rows]
    cases hrows : buildRowsAux 0 dist 0 with
    | nil => simp [hrows]
    | cons r rest =>
      have : r.pct = 0 := buildRowsAux_pct_total_zero dist 0 r (by rw [hrows]; simp)
      simp [hrows, this]

/-- C7 witness: the empty-source facts applied at concrete inputs. -/
theorem analyzer_total_props_witness :
    null_pct 3 0 = 0 ∧ assess_cardinality 7 0 = "Empty" ∧
    (build_distribution_rows [] 5).1 = [] :=
  ⟨(analyzer_total_props 3 7 5 [(some "a", 2)]).1,
   (analyzer_total_props 3 7 5 [(some "a", 2)]).2.2.2.1,
   (analyzer_total_props 3 7 5 [(some "a", 2)]).2.2.2.2.1⟩

lemma buildRowsAux_head_cum (total : ℕ) (dist : List (Option String × ℕ)) (c : ℚ) :
    ∀ x ∈ ((buildRowsAux total dist c).map DistRow.cumulative).head?, c ≤ x := by
  cases dist with
  | nil => simp [buildRowsAux]
  | cons e rest =>
    obtain ⟨v, n⟩ := e
    simp only [buildRowsAux, List.map_cons, List.head?_cons, Option.mem_def,
      Option.some.injEq]
    rintro x rfl
    have hp : (0 : ℚ) ≤ (if 0 < total then (n : ℚ) / (total : ℚ) * 100 else 0) := by
      split_ifs with h
      · positivity
      · exact le_refl 0
    linarith

lemma buildRowsAux_chain (total : ℕ) (dist : List (Option String × ℕ)) :
    ∀ c : ℚ, List.Chain' (· ≤ ·) ((buildRowsAux total dist c).map DistRow.cumulative) := by
  induction dist with
  | nil => intro c; simp [buildRowsAux]
  | cons e rest ih =>
    intro c
    obtain ⟨v, n⟩ := e
    simp only [buildRowsAux, List.map_cons]
    rw [List.chain'_cons']
    exact ⟨buildRowsAux_head_cum total rest _, ih _⟩

lemma buildRowsAux_last (total : ℕ) (ht : 0 < total) :
    ∀ (dist : List (Option String × ℕ)) (c : ℚ), dist ≠ [] →
      ∃ r, (buildRowsAux total dist c).getLast? = some r ∧
        r.cumulative = c + (((dist.map Prod.snd).sum : ℕ) : ℚ) / (total : ℚ) * 100 := by
  intro dist
  induction dist with
  | nil => intro c h; exact absurd rfl h
  | cons e rest ih =>
    intro c _
    obtain ⟨v, n⟩ := e
    cases rest with
    | nil =>
      refine ⟨DistRow.mk (format_value v) n
          (if 0 < total then (n : ℚ) / (total : ℚ) * 100 else 0)
          (c + (if 0 < total then (n : ℚ) / (total : ℚ) * 100 else 0)), ?_, ?_⟩
      · rfl
      · simp only [if_pos ht, List.map_cons, List.map_nil, List.sum_cons, List.sum_nil]
        push_cast
        ring
    | cons e2 rest2 =>
      obtain ⟨r, hlast, hcum⟩ :=
        ih (c + (if 0 < total then (n : ℚ) / (total : ℚ) * 100 else 0)) (by simp)
      obtain ⟨v2, n2⟩ := e2
      refine ⟨r, ?_, ?_⟩
      · simp only [buildRowsAux, List.getLast?_cons_cons]
        simpa [buildRowsAux] using hlast
      · rw [hcum, if_pos ht]
        simp only [List.map_cons, List.sum_cons]
        push_cast
        ring

lemma build_rows_fst (dist : List (Option String × ℕ)) (total : ℕ) :
    (build_distribution_rows dist total).1 = buildRowsAux total dist 0 := rfl

/-- C8: under exact arithmetic the cumulative-percentage sequence of
`build_distribution_rows` is non-decreasing; its final value is at most 100
when the counts sum to at most `total`, and strictly below 100 when the
counts sum to strictly less than `total`. -/
theorem cumulative_pct_props (dist : List (Option String × ℕ)) (total : ℕ)
    (ht : 0 < total) (hpos : ∀ e ∈ dist, 0 < e.2) :
    List.Chain' (· ≤ ·)
      (((build_distribution_rows dist total).1).map DistRow.cumulative) ∧
    ((dist.map Prod.snd).sum ≤ total →
      ∀ x : ℚ,
        (((build_distribution_rows dist total).1).map DistRow.cumulative).getLast? = some x →
        x ≤ 100) ∧
    ((dist.map Prod.snd).sum < total →
      ∀ x : ℚ,
        (((build_distribution_rows dist total).1).map DistRow.cumulative).getLast? = some x →
        x < 100) := by
  rw [build_rows_fst]
  rcases eq_or_ne dist [] with hd | hd
  · subst hd
    refine ⟨by simp [buildRowsAux], ?_, ?_⟩ <;>
      · intro _ x hx
        simp [buildRowsAux] at hx
  · obtain ⟨r, hlast, hcum⟩ := buildRowsAux_last total ht dist 0 hd
    refine ⟨buildRowsAux_chain total dist 0, ?_, ?_⟩
    · intro hsum x hx
      rw [List.getLast?_map, hlast] at hx
      simp at hx
      subst hx
      rw [hcum, zero_add]
      have hle : (((dist.map Prod.snd).sum : ℕ) : ℚ) / (total : ℚ) ≤ 1 := by
        rw [div_le_one (by exact_mod_cast ht)]
        exact_mod_cast hsum
      nlinarith
    · intro hsum x hx
      rw [List.getLast?_map, hlast] at hx
      simp at hx
      subst hx
      rw [hcum, zero_add]
      have hlt : (((dist.map Prod.snd).sum : ℕ) : ℚ) / (total : ℚ) < 1 := by
        rw [div_lt_one (by exact_mod_cast ht)]
        exact_mod_cast hsum
      nlinarith

/-- C8 witness: one entry of count 1 against total 2 — final cumulative is
50, which is ≤ 100 and < 100 (the limit truncates: 1 < 2). -/
theorem cumulative_pct_props_witness :
    List.Chain' (· ≤ ·)
      (((build_distribution_rows [(some "a", 1)] 2).1).map DistRow.cumulative) ∧
    (0 : ℚ) + (1 : ℚ) / 2 * 100 ≤ 100 ∧ (0 : ℚ) + (1 : ℚ) / 2 * 100 < 100 := by
  have h := cumulative_pct_props [(some "a", 1)] 2 (by norm_num)
    (by intro e he; simp at he; subst he; norm_num)
  have hlast :
      ((((build_distribution_rows [(some "a", 1)] 2).1).map DistRow.cumulative).getLast?) =
        some ((0 : ℚ) + (1 : ℚ) / 2 * 100) := by
    simp [build_distribution_rows, buildRowsAux]
  exact ⟨h.1, h.2.1 (by norm_num) _ hlast, h.2.2 (by norm_num) _ hlast⟩

/-- C9: `query_column_stats` opens the connection first and closes it
exactly once, as the last event, on every path; the four results are
returned only when all four queries succeeded, and the result is an error
iff some query failed (no partial results). -/
theorem query_column_stats_scoped (e : Engine) :
    ((query_column_stats e).2.head? = some Event.openConn) ∧
    ((query_column_stats e).2.getLast? = some Event.closeConn) ∧
    ((query_column_stats e).2.count Event.closeConn = 1) ∧
    (∀ total nulls unique_count distribution,
      (query_column_stats e).1 = .ok (total, nulls, unique_count, distribution) →
        e.totalQ = .ok total ∧ e.nullsQ = .ok nulls ∧ e.uniqueQ = .ok unique_count ∧
          e.distQ = .ok distribution) ∧
    ((∃ m, (query_column_stats e).1 = .error m) ↔
      ((∃ m, e.totalQ = .error m) ∨ (∃ m, e.nullsQ = .error m) ∨
       (∃ m, e.uniqueQ = .error m) ∨ (∃ m, e.distQ = .error m))) := by
  obtain ⟨tq, nq, uq, dq⟩ := e
  cases tq <;> cases nq <;> cases uq <;> cases dq <;>
    simp [query_column_stats, List.count_cons, List.count_nil]

/-- C9 witness: an all-successful engine — results recovered, connection
closed last. -/
theorem query_column_stats_scoped_witness :
    (Engine.mk (.ok 5) (.ok 1) (.ok 2) (.ok [])).totalQ = Except.ok 5 ∧
    (query_column_stats (Engine.mk (.ok 5) (.ok 1) (.ok 2) (.ok []))).2.getLast? =
      some Event.closeConn :=
  ⟨((query_column_stats_scoped (Engine.mk (.ok 5) (.ok 1) (.ok 2) (.ok []))).2.2.2.1
      5 1 2 [] rfl).1,
   (query_column_stats_scoped (Engine.mk (.ok 5) (.ok 1) (.ok 2) (.ok []))).2.1⟩

end MlSkills
